import Mathlib

/-!
Formal model of the Stock-Tracker-Bot repository (src/product_tracker.py,
src/database.py, src/store_scrapers.py, src/bot.py).

Prices are modelled as rationals (ℚ).  Python dictionaries produced at fixed
program points are modelled as records holding exactly the keys the producing
code sets; a subscript of a key that is never set is modelled as the
`PyError.keyError` it raises at run time, and a call to a method that the
class never defines is modelled as the `PyError.attributeError` it raises.
String helpers (`replace`, `strip`, `lower`, `float(...)`) are re-implemented
structurally over `List Char` so that every definition evaluates by kernel
reduction.
-/

namespace StockTracker

/-! ### String helpers (Python `str.replace`, `str.strip`, `str.lower`, `float`) -/

/-- Leftmost, non-overlapping replacement of `pat` by `rep`, as Python
`str.replace` performs for a non-empty pattern.  `fuel` is an upper bound on
the length of the remaining input (the callers pass the full length). -/
def replace_go (pat rep : List Char) : Nat → List Char → List Char
  | 0, cs => cs
  | _, [] => []
  | fuel + 1, c :: cs =>
    if pat.isPrefixOf (c :: cs) then
      rep ++ replace_go pat rep fuel (cs.drop (pat.length - 1))
    else
      c :: replace_go pat rep fuel cs

/-- Python `s.replace(pat, rep)` for a non-empty pattern. -/
def pyReplace (s pat rep : String) : String :=
  String.mk (replace_go pat.toList rep.toList s.toList.length s.toList)

/-- Python `s.strip()` restricted to ASCII whitespace, which is all that the
scraped price texts contain. -/
def pyStrip (s : String) : String :=
  String.mk (((s.toList.dropWhile Char.isWhitespace).reverse.dropWhile Char.isWhitespace).reverse)

/-- Python `s.lower()` (ASCII). -/
def pyLower (s : String) : String :=
  String.mk (s.toList.map Char.toLower)

/-- Value of a digit run, most significant first. -/
def digitsVal (cs : List Char) : Nat :=
  cs.foldl (fun a c => a * 10 + (c.toNat - 48)) 0

/-- Syntactic phase of Python `float(s)` on signed plain decimal notation
(optional sign, digits, at most one dot, at least one digit): the only shapes
the cleaned price texts can take.  Returns the sign (`true` = negative), the
integer digits and the fraction digits; on every other input `float` raises
`ValueError`, modelled as `none`.  Exponent notation, `inf`/`nan` and
embedded underscores are not modelled. -/
def floatParts (s : String) : Option (Bool × List Char × List Char) :=
  let signBody : Bool × List Char :=
    match s.toList with
    | '+' :: rest => (false, rest)
    | '-' :: rest => (true, rest)
    | rest => (false, rest)
  let intPart := signBody.2.takeWhile Char.isDigit
  let rest := signBody.2.dropWhile Char.isDigit
  match rest with
  | [] =>
    if intPart.isEmpty then none else some (signBody.1, intPart, [])
  | '.' :: fracRest =>
    let fracPart := fracRest.takeWhile Char.isDigit
    let tail := fracRest.dropWhile Char.isDigit
    if tail.isEmpty && !(intPart.isEmpty && fracPart.isEmpty) then
      some (signBody.1, intPart, fracPart)
    else none
  | _ => none

/-- Numeric value of a parsed decimal: `±(int + frac / 10 ^ |frac|)`. -/
def ratOfParts (p : Bool × List Char × List Char) : ℚ :=
  let mag : ℚ := (digitsVal p.2.1 : ℚ) + (digitsVal p.2.2 : ℚ) / (10 ^ p.2.2.length)
  if p.1 then -mag else mag

/-- Python `float(s)` on the string shapes described at `floatParts`. -/
def pyFloat (s : String) : Option ℚ :=
  (floatParts s).map ratOfParts

/-! ### Price extraction (`ProductTracker._extract_price`, lines 249-271) -/

/-- A loaded product page, modelled as the association of element class names
to the text of the first element of that class (`driver.find_element`
returns the first match; a class with no element is absent from the list). -/
abbrev Page := List (String × String)

/-- Text of the first element with the given class name, `none` when
`find_element` raises `NoSuchElementException`. -/
def findText (page : Page) (sel : String) : Option String :=
  (page.find? (fun e => decide (e.1 = sel))).map (fun e => e.2)

/-- The ordered price selector candidates of `_extract_price` (lines 252-256). -/
def price_selectors : List String := ["prc-dsc", "prc-slg", "price-box"]

/-- Line 262: `price_text.replace('TL', '').replace('.', '').replace(',', '.').strip()`. -/
def clean_price_text (t : String) : String :=
  pyStrip (pyReplace (pyReplace (pyReplace t "TL" "") "." "") "," ".")

/-- The selector loop of `_extract_price` (lines 258-265): the first candidate
whose element exists and whose cleaned text parses wins; an unparseable or
missing candidate falls through to the next one. -/
def extract_price_go (page : Page) : List String → ℚ
  | [] => 0
  | sel :: rest =>
    match findText page sel with
    | none => extract_price_go page rest
    | some txt =>
      match pyFloat (clean_price_text txt) with
      | some v => v
      | none => extract_price_go page rest

/-- `ProductTracker._extract_price` (lines 249-271): when no candidate parses,
the raised `ValueError` is caught and `0.0` is returned (lines 267-271). -/
def extract_price (page : Page) : ℚ :=
  extract_price_go page price_selectors

/-! ### Product details (`ProductTracker.get_product_details`, lines 175-238) -/

/-- The dict built by `get_product_details` at lines 220-225.  It holds
exactly the keys `name`, `price`, `available_sizes` (and a timestamp, not
modelled); in particular it has no `is_available` key. -/
structure Details where
  name : String
  price : ℚ
  availableSizes : List String
deriving DecidableEq

/-- The name selector candidates of `get_product_details` (line 200). -/
def name_selectors : List String := ["pr-new-br", "product-name", "title"]

/-- The name loop of `get_product_details` (lines 199-208): first candidate
with a non-empty stripped text. -/
def extract_name_go (page : Page) : List String → Option String
  | [] => none
  | sel :: rest =>
    match findText page sel with
    | none => extract_name_go page rest
    | some txt =>
      if pyStrip txt = "" then extract_name_go page rest else some (pyStrip txt)

/-- Body of `get_product_details` (lines 199-228) on a loaded page: `None`
when no product name is found (lines 210-212) or when the extracted price is
not strictly positive (lines 216-218); otherwise the details dict.  The
`available_sizes` value comes from `get_available_sizes` and is passed in. -/
def get_product_details (page : Page) (sizes : List String) : Option Details :=
  match extract_name_go page name_selectors with
  | none => none
  | some nm =>
    if extract_price page ≤ 0 then none
    else some ⟨nm, extract_price page, sizes⟩

/-! ### Persistent store (src/database.py) -/

/-- A row of the `tracked_products` table (database.py lines 17-26;
timestamp columns are not modelled). -/
structure TrackedProduct where
  id : Nat
  userId : Nat
  url : String
  size : String
  lastPrice : ℚ
  productName : String
deriving DecidableEq

/-- A row of the `price_thresholds` table (database.py lines 50-57). -/
structure Threshold where
  productId : Nat
  userId : Nat
  thresholdPrice : ℚ
deriving DecidableEq

/-- The tables touched by the tracking cycle: `tracked_products` and
`price_history` (a history row is a product id paired with a price; the
timestamp is not modelled). -/
structure DbState where
  products : List TrackedProduct
  history : List (Nat × ℚ)
deriving DecidableEq

/-- `Database.update_product_price` (database.py lines 135-146): update the
row's `last_price` and append exactly one `price_history` row. -/
def update_product_price (db : DbState) (pid : Nat) (newPrice : ℚ) : DbState :=
  { products := db.products.map fun p =>
      if p.id = pid then { p with lastPrice := newPrice } else p,
    history := db.history ++ [(pid, newPrice)] }

/-- `Database.delete_product` (database.py lines 126-133): `DELETE FROM
tracked_products WHERE id = ? AND user_id = ?`, returning
`cursor.rowcount > 0`. -/
def delete_product (rows : List TrackedProduct) (userId pid : Nat) :
    Bool × List TrackedProduct :=
  let remaining := rows.filter fun r => decide ¬(r.id = pid ∧ r.userId = userId)
  (decide (remaining.length < rows.length), remaining)

/-! ### The check cycle (`ProductTracker._check_product`, lines 314-356) -/

/-- Uncaught Python exceptions of `_check_product`.  `attributeError` is an
access to an attribute/method its object never defines; `keyError` a dict
subscript of a key never set (the latent `details['is_available']` bug of
line 335, kept for documentation: it sits behind the earlier crash of line
323 and is never reached). -/
inductive PyError where
  | attributeError (attr : String)
  | keyError (key : String)
deriving DecidableEq

/-- The notification events of the `_notify_*` call sites in `_check_product`
(lines 326, 336 and 347), carrying the arguments passed there. -/
inductive Notif where
  | thresholdReached (userId : Nat) (productName url : String)
      (thresholdPrice currentPrice : ℚ)
  | stockAvailable (userId : Nat) (productName url : String)
  | priceDrop (userId : Nat) (productName url : String)
      (oldPrice newPrice : ℚ) (availableSizes : List String)
deriving DecidableEq

/-- Result of one `_check_product` call: the notifications emitted before the
call returned or raised, the database state afterwards, and the uncaught
exception, if any. -/
structure CheckOutcome where
  notifs : List Notif
  db : DbState
  raised : Option PyError
deriving DecidableEq

/-- The guard of the price-drop branch (lines 342-344): price strictly
decreased and the tracked size is the sentinel `"hepsi"` (Turkish for
"all") or appears in the newly observed size list. -/
def price_drop_condition (product : TrackedProduct) (d : Details) : Bool :=
  decide (d.price < product.lastPrice) &&
    (decide (pyLower product.size = "hepsi") || d.availableSizes.contains product.size)

/-- `ProductTracker._check_product` (lines 314-356).  `details` is the result
of `get_product_details`.  Control flow, traced against the source: lines
315-317 return silently when the scrape failed; otherwise line 323 evaluates
`self.db.get_product_thresholds(product['id'])`, but `Database`
(database.py) defines no method of that name, so every successful scrape
raises `AttributeError` right there, before any notification or write.
Everything after line 323 is unreachable dead code: the threshold loop
(lines 324-332, whose `self._notify_threshold_reached` is also undefined on
`ProductTracker`), the stock check (line 335, whose
`details['is_available']` subscripts a key the dict of lines 220-225 never
contains), the price-drop branch (lines 342-354) and the persistence call
`update_product_price` (line 356). -/
def check_product (db : DbState) (product : TrackedProduct)
    (details : Option Details) : CheckOutcome :=
  match details with
  | none => ⟨[], db, none⟩
  | some _ => ⟨[], db, some (.attributeError "get_product_thresholds")⟩

/-- Result of one pass of the inner loop of `_tracking_loop` (lines 302-306)
over the product snapshot. -/
structure CycleResult where
  db : DbState
  notifs : List Notif
  raised : Option PyError
deriving DecidableEq

/-- The inner loop of `_tracking_loop` (lines 302-306): check each product of
the snapshot in order.  `scrape` gives the `get_product_details` result for
a URL.  An exception raised by `_check_product` propagates out of the `for`
loop (it is caught by the `except` of lines 308-312), so it ends the pass
early. -/
def run_cycle (scrape : String → Option Details) :
    DbState → List TrackedProduct → CycleResult
  | db, [] => ⟨db, [], none⟩
  | db, p :: rest =>
    let out := check_product db p (scrape p.url)
    match out.raised with
    | some e => ⟨out.db, out.notifs, some e⟩
    | none =>
      let r := run_cycle scrape out.db rest
      ⟨r.db, out.notifs ++ r.notifs, r.raised⟩

/-! ### Driver pool, sequential semantics (`DriverPool`, lines 33-86)

The pool state is the number of drivers sitting in the `drivers` queue and
the `active_drivers` counter (a plain Python int, so modelled as `Int`).
Driver identities are irrelevant to the claims and are not tracked. -/

/-- How a `get_driver` call returns: with a queued driver (line 42 or 49),
with a freshly created one (lines 45-47), or not at all — the final
`self.drivers.get()` on an empty queue blocks the caller. -/
inductive GetOutcome where
  | fromQueue
  | created
  | blocks
deriving DecidableEq

structure PoolState where
  maxDrivers : Int
  queueLen : Nat
  active : Int
deriving DecidableEq

/-- `DriverPool.get_driver` (lines 39-52) run without interleaving. -/
def get_driver (s : PoolState) : GetOutcome × PoolState :=
  if 0 < s.queueLen then (.fromQueue, { s with queueLen := s.queueLen - 1 })
  else if s.active < s.maxDrivers then (.created, { s with active := s.active + 1 })
  else (.blocks, s)

/-- `DriverPool.return_driver` (lines 54-55): unconditional `put`. -/
def return_driver (s : PoolState) : PoolState :=
  { s with queueLen := s.queueLen + 1 }

/-- The `while not self.drivers.empty()` loop of `cleanup` (lines 81-86):
each iteration takes one queued driver, quits it and decrements
`active_drivers`. -/
def cleanup_go : Nat → Int → Int
  | 0, a => a
  | n + 1, a => cleanup_go n (a - 1)

/-- `DriverPool.cleanup` (lines 81-86).  It drains and quits the queued
drivers; it sets no closed flag and leaves `max_drivers` untouched, so the
pool keeps serving `get_driver` afterwards. -/
def cleanup (s : PoolState) : PoolState :=
  { s with queueLen := 0, active := cleanup_go s.queueLen s.active }

/-! ### Driver pool, concurrent semantics (for the capacity invariant)

`get_driver` takes no lock, so distinct callers interleave between its
lines.  Each thread is at a program counter inside `get_driver`; each
labelled transition performs one line of the source atomically (which is
generous to the code: CPython guarantees at most bytecode-level atomicity). -/

/-- Program counter of one thread inside `get_driver`.
`start`: about to evaluate `self.drivers.empty()` (line 41);
`tryGet`: about to call `self.drivers.get()` (line 42 or 49);
`checkCap`: about to evaluate `self.active_drivers < self.max_drivers` (line 44);
`create`: passed the capacity check, about to create and count the driver (lines 45-46);
`done`: returned from `get_driver`, holding a driver;
`released`: gave its driver back via `return_driver`. -/
inductive TPC where
  | start
  | tryGet
  | checkCap
  | create
  | done
  | released
deriving DecidableEq

/-- Shared pool state plus the program counters of the client threads. -/
structure PoolSys where
  maxDrivers : Nat
  queueLen : Nat
  active : Nat
  threads : List TPC
deriving DecidableEq

/-- Number of drivers currently acquired and not yet returned. -/
def outstanding (s : PoolSys) : Nat :=
  s.threads.countP (fun t => decide (t = TPC.done))

/-- One atomic line of `get_driver`/`return_driver` executed by thread `i`. -/
inductive PoolStep : PoolSys → PoolSys → Prop where
  | seesNonempty (s : PoolSys) (i : Nat)
      (h : s.threads.get? i = some .start) (hq : 0 < s.queueLen) :
      PoolStep s { s with threads := s.threads.set i .tryGet }
  | seesEmpty (s : PoolSys) (i : Nat)
      (h : s.threads.get? i = some .start) (hq : s.queueLen = 0) :
      PoolStep s { s with threads := s.threads.set i .checkCap }
  | takesFromQueue (s : PoolSys) (i : Nat)
      (h : s.threads.get? i = some .tryGet) (hq : 0 < s.queueLen) :
      PoolStep s { s with queueLen := s.queueLen - 1, threads := s.threads.set i .done }
  | capacityOk (s : PoolSys) (i : Nat)
      (h : s.threads.get? i = some .checkCap) (hc : s.active < s.maxDrivers) :
      PoolStep s { s with threads := s.threads.set i .create }
  | capacityFull (s : PoolSys) (i : Nat)
      (h : s.threads.get? i = some .checkCap) (hc : ¬ s.active < s.maxDrivers) :
      PoolStep s { s with threads := s.threads.set i .tryGet }
  | createsDriver (s : PoolSys) (i : Nat)
      (h : s.threads.get? i = some .create) :
      PoolStep s { s with active := s.active + 1, threads := s.threads.set i .done }
  | returnsDriver (s : PoolSys) (i : Nat)
      (h : s.threads.get? i = some .done) :
      PoolStep s { s with queueLen := s.queueLen + 1, threads := s.threads.set i .released }

/-! ### Retry policy (`@retry(WebDriverException, tries=3, delay=2, backoff=2)`)

`get_available_sizes` (line 121) and `get_product_details` (line 175) are
wrapped by the `retry` decorator, which re-calls the function when it raises
`WebDriverException`, sleeping `delay` and multiplying it by `backoff` after
every failed attempt except the last, up to `tries` calls total. -/

/-- Trace of one decorated call: the result (`Except.error` = the exception
escaped), the number of calls made to the wrapped function, and the sleeps
performed between attempts. -/
structure RetryTrace (α : Type) where
  result : Except Unit α
  attempts : Nat
  sleeps : List Nat

/-- The retry loop: `attempt` counts the calls already made, then remaining
tries, then the current delay. -/
def retry_go {α : Type} (body : Nat → Except Unit α) (backoff : Nat) :
    Nat → Nat → Nat → RetryTrace α
  | attempt, 0, _ => ⟨.error (), attempt, []⟩
  | attempt, 1, _ =>
    match body attempt with
    | .ok v => ⟨.ok v, attempt + 1, []⟩
    | .error e => ⟨.error e, attempt + 1, []⟩
  | attempt, n + 2, delay =>
    match body attempt with
    | .ok v => ⟨.ok v, attempt + 1, []⟩
    | .error _ =>
      let t := retry_go body backoff (attempt + 1) (n + 1) (delay * backoff)
      ⟨t.result, t.attempts, delay :: t.sleeps⟩

/-- The `try ... except Exception` body wrapper of `get_available_sizes`
(lines 157-160) and `get_product_details` (lines 230-232): every exception of
the underlying page load or extraction — `WebDriverException` included — is
caught inside the function, which returns the fallback (`[]`, resp. `None`)
instead of raising. -/
def swallow {α : Type} (fallback : α) (op : Nat → Except Unit α) (n : Nat) :
    Except Unit α :=
  match op n with
  | .ok v => .ok v
  | .error _ => .ok fallback

/-- `get_available_sizes` as decorated (line 121): retry with
`tries = 3, delay = 2, backoff = 2` around the exception-swallowing body.
`op n` is the underlying outcome of the `n`-th page load. -/
def get_available_sizes_call (op : Nat → Except Unit (List String)) :
    RetryTrace (List String) :=
  retry_go (swallow [] op) 2 0 3 2

/-- `get_product_details` as decorated (line 175), same policy, fallback
`None`. -/
def get_product_details_call (op : Nat → Except Unit (Option Details)) :
    RetryTrace (Option Details) :=
  retry_go (swallow none op) 2 0 3 2

/-! ### Concrete instances used by the test vectors of the claims -/

/-- A tracked product with stored last price 100 and tracked size `"M"`. -/
def p0 : TrackedProduct :=
  ⟨1, 7, "https://www.trendyol.com/marka/gomlek-p-123", "M", 100, "Gomlek"⟩

/-- A store with `p0` tracked and an empty price history. -/
def db0 : DbState := ⟨[p0], []⟩

/-- A successful scrape of `p0` at price 80 with sizes `["M", "L"]`. -/
def d0 : Details := ⟨"Gomlek", 80, ["M", "L"]⟩

/-- A threshold at price 90 for product 1, owned by user 7. -/
def th90 : Threshold := ⟨1, 7, 90⟩

/-- A threshold at price 70 for product 1, owned by user 7. -/
def th70 : Threshold := ⟨1, 7, 70⟩

/-- Four threads about to call `get_driver` on a fresh pool with
`max_drivers = 3`. -/
def pool_race_init : PoolSys := ⟨3, 0, 0, [.start, .start, .start, .start]⟩

/-- The state in which all four callers hold a driver: 4 outstanding sessions
against a capacity of 3. -/
def pool_race_final : PoolSys := ⟨3, 0, 4, [.done, .done, .done, .done]⟩

/-! ## Theorems -/

/-- Helper: `_check_product` never emits any notification, on any input: the
failure path returns before notifying, and the success path raises
`AttributeError` at line 323 before the first `_notify_*` call site. -/
theorem check_product_notifs_nil (db : DbState) (p : TrackedProduct)
    (det : Option Details) :
    (check_product db p det).notifs = [] := by
  cases det <;> rfl

/-- Helper: what `Database.update_product_price` would do when called: set
the row's last price and append exactly one history entry.  `_check_product`
never reaches its call site (line 356). -/
theorem update_product_price_spec (db : DbState) (pid : Nat) (v : ℚ) :
    (update_product_price db pid v).history = db.history ++ [(pid, v)] ∧
    (update_product_price db pid v).products =
      db.products.map (fun p => if p.id = pid then { p with lastPrice := v } else p) :=
  ⟨rfl, rfl⟩

/-- Helper for the price-extraction claim: when every selector candidate is
missing or unparseable the selector loop falls through to 0. -/
theorem extract_price_go_eq_zero (page : Page) (sels : List String)
    (h : ∀ sel ∈ sels, ((findText page sel).map clean_price_text).bind pyFloat = none) :
    extract_price_go page sels = 0 := by
  induction sels with
  | nil => rfl
  | cons sel rest ih =>
    have hs := h sel (List.mem_cons_self _ _)
    have hrest := fun s hsm => h s (List.mem_cons_of_mem _ hsm)
    cases hf : findText page sel with
    | none => simpa [extract_price_go, hf] using ih hrest
    | some txt =>
      have hp : pyFloat (clean_price_text txt) = none := by
        rw [hf] at hs
        simpa using hs
      simpa [extract_price_go, hf, hp] using ih hrest

/-- Helper for the delete claim: the `DELETE` shrinks the table exactly when
a row with the given id and owner exists. -/
theorem delete_filter_length_lt (u pid : Nat) (rows : List TrackedProduct) :
    ((rows.filter fun r => decide ¬(r.id = pid ∧ r.userId = u)).length < rows.length ↔
      ∃ r ∈ rows, r.id = pid ∧ r.userId = u) := by
  induction rows with
  | nil => simp
  | cons r rs ih =>
    by_cases hm : r.id = pid ∧ r.userId = u
    · have hlen := List.length_filter_le
        (fun r : TrackedProduct => decide ¬(r.id = pid ∧ r.userId = u)) rs
      simp only [List.filter_cons, hm, decide_not, List.length_cons]
      constructor
      · intro _
        exact ⟨r, List.mem_cons_self _ _, hm⟩
      · intro _
        simpa [hm] using Nat.lt_succ_of_le hlen
    · simp only [List.filter_cons, hm, decide_not, List.length_cons]
      constructor
      · intro hlt
        have hlt2 : (rs.filter fun r => decide ¬(r.id = pid ∧ r.userId = u)).length < rs.length := by
          simpa [hm] using hlt
        obtain ⟨x, hx, hxp⟩ := ih.mp hlt2
        exact ⟨x, List.mem_cons_of_mem _ hx, hxp⟩
      · intro hex
        obtain ⟨x, hx, hxp⟩ := hex
        rcases List.mem_cons.mp hx with hxr | hxrs
        · exact absurd (hxr ▸ hxp) hm
        · have := ih.mpr ⟨x, hxrs, hxp⟩
          simpa [hm] using Nat.succ_lt_succ this

/-- C1.  The claim says a price-drop notification fires when the new price is
strictly below the stored one and the tracked size matches; in particular
old 100, new 80, size `"M"`, observed `["M", "L"]` should fire.  The code
never reaches the price-drop branch on a successful scrape: at that very
input the guard of lines 342-344 holds, yet `_check_product` raises
`AttributeError` at line 323 — `Database` defines no
`get_product_thresholds` method — so no notification is emitted. -/
theorem c1_price_drop_dead_code :
    price_drop_condition p0 d0 = true ∧
    check_product db0 p0 (some d0) =
      ⟨[], db0, some (PyError.attributeError "get_product_thresholds")⟩ := by decide

/-- C2.  The claim says a successful scrape unconditionally persists the new
price and appends exactly one history row.  In the code every successful
scrape raises `AttributeError` at line 323 (`Database` has no
`get_product_thresholds`), long before the `update_product_price` call of
line 356, so the stored state is never touched: no last-price update and no
history append. -/
theorem c2_persistence_unreachable (db : DbState) (p : TrackedProduct)
    (d : Details) :
    (check_product db p (some d)).db = db ∧
    (check_product db p (some d)).raised.isSome = true :=
  ⟨rfl, rfl⟩

/-- C3.  The claim says exactly the 90-threshold notification fires for
thresholds 90 and 70 at new price 80: indeed exactly one of the two stored
thresholds satisfies the line-325 comparison at that price (first conjunct).
But the program never gets to compare them: fetching the thresholds at line
323 already raises `AttributeError`, because `Database` defines no
`get_product_thresholds` method, so the check crashes and no notification is
emitted (second conjunct).  (Had the fetch existed, the loop body's
`self._notify_threshold_reached` at line 326 is also undefined on
`ProductTracker`.) -/
theorem c3_thresholds_never_fetched :
    ([th90, th70].filter fun t => decide (d0.price ≤ t.thresholdPrice)) = [th90] ∧
    check_product db0 p0 (some d0) =
      ⟨[], db0, some (PyError.attributeError "get_product_thresholds")⟩ := by decide

/-- C4.  The claim says an unavailable-to-available transition emits a
restock notification.  No input to `_check_product` can ever emit one: every
successful scrape raises `AttributeError` at line 323 (no
`Database.get_product_thresholds`), so the stock check of line 335 is dead
code — and even it could not work, since `details['is_available']` is a key
the details dict never has, the `tracked_products` schema stores no
`was_available` column, and `_notify_stock_available` does not exist on
`ProductTracker`. -/
theorem c4_no_restock_notification (db : DbState) (p : TrackedProduct)
    (det : Option Details) (u : Nat) (nm url : String) :
    Notif.stockAvailable u nm url ∉ (check_product db p det).notifs := by
  rw [check_product_notifs_nil]
  exact List.not_mem_nil _

/-- C5.  The claim says the pool never has more than `max_drivers`
outstanding sessions under concurrency.  `get_driver` takes no lock, so the
capacity test of line 44 and the increment of line 46 of different callers
interleave: from a fresh pool with capacity 3, four concurrent callers can
each pass the test while `active_drivers` is still 0 and then each create a
driver, reaching a state with 4 outstanding sessions. -/
theorem c5_capacity_exceeded_reachable :
    Relation.ReflTransGen PoolStep pool_race_init pool_race_final ∧
    pool_race_init.maxDrivers = 3 ∧
    outstanding pool_race_final = 4 ∧
    pool_race_final.maxDrivers < outstanding pool_race_final := by
  refine ⟨?_, by decide, by decide, by decide⟩
  refine Relation.ReflTransGen.head (PoolStep.seesEmpty _ 0 rfl rfl) ?_
  refine Relation.ReflTransGen.head (PoolStep.seesEmpty _ 1 rfl rfl) ?_
  refine Relation.ReflTransGen.head (PoolStep.seesEmpty _ 2 rfl rfl) ?_
  refine Relation.ReflTransGen.head (PoolStep.seesEmpty _ 3 rfl rfl) ?_
  refine Relation.ReflTransGen.head (PoolStep.capacityOk _ 0 rfl (by decide)) ?_
  refine Relation.ReflTransGen.head (PoolStep.capacityOk _ 1 rfl (by decide)) ?_
  refine Relation.ReflTransGen.head (PoolStep.capacityOk _ 2 rfl (by decide)) ?_
  refine Relation.ReflTransGen.head (PoolStep.capacityOk _ 3 rfl (by decide)) ?_
  refine Relation.ReflTransGen.head (PoolStep.createsDriver _ 0 rfl) ?_
  refine Relation.ReflTransGen.head (PoolStep.createsDriver _ 1 rfl) ?_
  refine Relation.ReflTransGen.head (PoolStep.createsDriver _ 2 rfl) ?_
  exact Relation.ReflTransGen.single (PoolStep.createsDriver _ 3 rfl)

/-- C6.  The claim says a scrape call failing twice then succeeding returns
the success after three attempts spaced 2 then 4.  The decorated bodies
catch every exception internally (`except Exception` at lines 157-160 and
230-232) and return their fallback, so the `retry` decorator never sees a
`WebDriverException`: with page loads failing on attempts 0 and 1 and
succeeding on attempt 2, the call returns the fallback (`[]`, resp. `None`)
after a single attempt with no sleeps.  The third conjunct shows the
decorator itself would deliver the claimed behaviour if the body re-raised:
success on the third call after sleeps 2 and 4. -/
theorem c6_retry_dead_code :
    get_available_sizes_call (fun n => if n < 2 then .error () else .ok ["M"]) =
      ⟨.ok [], 1, []⟩ ∧
    get_product_details_call (fun n => if n < 2 then .error () else .ok (some d0)) =
      ⟨.ok none, 1, []⟩ ∧
    retry_go (fun n => if n < 2 then .error () else .ok ["M"]) 2 0 3 2 =
      ⟨.ok ["M"], 3, [2, 4]⟩ :=
  ⟨rfl, rfl, rfl⟩

/-- C7.  A product whose scrape fails for the cycle (`get_product_details`
returned `None`) is given up silently: `_check_product` returns at lines
315-317 leaving the stored state unchanged and emitting no notification and
raising nothing, and the pass continues with the remaining products exactly
as if the failed product were absent. -/
theorem c7_scrape_failure_skips_product (db : DbState)
    (scrape : String → Option Details)
    (p : TrackedProduct) (rest : List TrackedProduct)
    (h : scrape p.url = none) :
    check_product db p (scrape p.url) = ⟨[], db, none⟩ ∧
    run_cycle scrape db (p :: rest) = run_cycle scrape db rest := by
  have h1 : check_product db p (scrape p.url) = ⟨[], db, none⟩ := by
    rw [h]
    rfl
  refine ⟨h1, ?_⟩
  simp [run_cycle, h1]

/-- Witness for C7 at a concrete failing scrape. -/
theorem c7_scrape_failure_skips_product_witness :
    check_product db0 p0 none = ⟨[], db0, none⟩ ∧
    run_cycle (fun _ => none) db0 [p0] = run_cycle (fun _ => none) db0 [] :=
  c7_scrape_failure_skips_product db0 (fun _ => none) p0 [] rfl

/-- C8 counterexample.  The claim says that after shutdown every `acquire`
fails with a `PoolClosed` error rather than handing out or creating a
session.  `DriverPool` keeps no closed flag: after creating a driver,
returning it and running `cleanup`, the pool state equals the fresh state,
and the next `get_driver` creates a new session. -/
theorem c8_acquire_after_cleanup_creates :
    cleanup (return_driver (get_driver ⟨3, 0, 0⟩).2) = (⟨3, 0, 0⟩ : PoolState) ∧
    (get_driver (cleanup (return_driver (get_driver ⟨3, 0, 0⟩).2))).1 =
      GetOutcome.created := by decide

/-- C8 as amended.  `cleanup` is idempotent and disposes every queued (free)
session; it installs no closed state, so a later `get_driver` succeeds —
creating a session whenever the remaining active count is below capacity —
instead of failing with a `PoolClosed` error. -/
theorem c8_cleanup_idempotent_and_reopen (s : PoolState) :
    cleanup (cleanup s) = cleanup s ∧
    (cleanup s).queueLen = 0 ∧
    ((cleanup s).active < (cleanup s).maxDrivers →
      (get_driver (cleanup s)).1 = GetOutcome.created) := by
  refine ⟨rfl, rfl, ?_⟩
  intro h
  unfold get_driver
  rw [if_neg (by simp [cleanup]), if_pos h]

/-- Witness for C8 on a pool with two queued drivers. -/
theorem c8_cleanup_witness :
    cleanup (cleanup (⟨3, 2, 2⟩ : PoolState)) = cleanup ⟨3, 2, 2⟩ ∧
    (get_driver (cleanup (⟨3, 2, 2⟩ : PoolState))).1 = GetOutcome.created :=
  ⟨(c8_cleanup_idempotent_and_reopen ⟨3, 2, 2⟩).1,
   (c8_cleanup_idempotent_and_reopen ⟨3, 2, 2⟩).2.2 (by decide)⟩

/-- C9.  Price extraction: the locale-formatted `"1.234,56 TL"` cleans to
`"1234.56"` and parses to 1234.56; the first selector candidate with a
parseable text wins; when no candidate parses the call returns the sentinel
0 instead of raising; and a 0 (or otherwise non-positive) price makes
`get_product_details` return `None`, after which `_check_product` skips all
notification and persistence logic for the cycle. -/
theorem c9_locale_price_parsing :
    extract_price [("prc-dsc", "1.234,56 TL")] = (123456 : ℚ) / 100 ∧
    (∀ (page : Page) (txt : String) (v : ℚ),
      findText page "prc-dsc" = some txt →
      pyFloat (clean_price_text txt) = some v →
      extract_price page = v) ∧
    (∀ page : Page,
      (∀ sel ∈ price_selectors,
        ((findText page sel).map clean_price_text).bind pyFloat = none) →
      extract_price page = 0) ∧
    (∀ (page : Page) (sizes : List String),
      extract_price page = 0 → get_product_details page sizes = none) ∧
    (∀ (db : DbState) (p : TrackedProduct),
      check_product db p none = ⟨[], db, none⟩) := by
  have hfirst : ∀ (page : Page) (txt : String) (v : ℚ),
      findText page "prc-dsc" = some txt →
      pyFloat (clean_price_text txt) = some v →
      extract_price page = v := by
    intro page txt v h1 h2
    simp [extract_price, price_selectors, extract_price_go, h1, h2]
  refine ⟨?_, hfirst, fun page h => extract_price_go_eq_zero page price_selectors h,
    ?_, fun db p => rfl⟩
  · apply hfirst _ "1.234,56 TL" _ (by decide)
    have hclean : clean_price_text "1.234,56 TL" = "1234.56" := by decide
    have hparts : floatParts "1234.56" = some (false, ['1', '2', '3', '4'], ['5', '6']) := by
      decide
    have hd1 : digitsVal ['1', '2', '3', '4'] = 1234 := by decide
    have hd2 : digitsVal ['5', '6'] = 56 := by decide
    rw [hclean]
    show (floatParts "1234.56").map ratOfParts = _
    rw [hparts]
    norm_num [ratOfParts, hd1, hd2]
  · intro page sizes h
    cases hn : extract_name_go page name_selectors with
    | none => simp [get_product_details, hn]
    | some nm => simp [get_product_details, hn, h]

/-- Witness for C9: the example text parses; a page whose price texts all
fail to parse extracts 0 and yields no product details. -/
theorem c9_locale_price_parsing_witness :
    extract_price [("prc-dsc", "1.234,56 TL")] = (123456 : ℚ) / 100 ∧
    extract_price [("prc-dsc", "fiyat yok"), ("pr-new-br", "Gomlek")] = 0 ∧
    get_product_details [("prc-dsc", "fiyat yok"), ("pr-new-br", "Gomlek")] ["M"] = none := by
  obtain ⟨ha, hb, hc, hd, he⟩ := c9_locale_price_parsing
  refine ⟨ha, hc _ (by decide), hd _ ["M"] (hc _ (by decide))⟩

/-- C10.  `delete_product` removes a row exactly when a row with the given
id exists and is owned by the calling user, returns `true` exactly in that
case, leaves the table unchanged when it returns `false`, and never removes
another user's row. -/
theorem c10_delete_product_owner_only (rows : List TrackedProduct) (u pid : Nat) :
    ((delete_product rows u pid).1 = true ↔
      ∃ r ∈ rows, r.id = pid ∧ r.userId = u) ∧
    ((delete_product rows u pid).1 = false → (delete_product rows u pid).2 = rows) ∧
    (∀ r ∈ rows, r.userId ≠ u → r ∈ (delete_product rows u pid).2) := by
  refine ⟨?_, ?_, ?_⟩
  · simpa [delete_product] using delete_filter_length_lt u pid rows
  · intro hf
    have hnlt : ¬ (rows.filter fun r => decide ¬(r.id = pid ∧ r.userId = u)).length
        < rows.length := by
      simpa [delete_product] using hf
    have hall : ∀ r ∈ rows, ¬(r.id = pid ∧ r.userId = u) := by
      intro r hr hc
      exact hnlt ((delete_filter_length_lt u pid rows).mpr ⟨r, hr, hc⟩)
    show rows.filter _ = rows
    rw [List.filter_eq_self]
    intro a ha
    exact decide_eq_true (hall a ha)
  · intro r hr hne
    refine List.mem_filter.mpr ⟨hr, ?_⟩
    simp only [decide_eq_true_eq]
    intro hc
    exact hne hc.2

/-- Witness for C10: deleting product 1 as the wrong user 8 returns `false`
and leaves the table unchanged; as the owner 7 it returns `true`. -/
theorem c10_delete_product_witness :
    (delete_product [p0] 8 1).2 = [p0] ∧
    p0 ∈ (delete_product [p0] 8 1).2 ∧
    (delete_product [p0] 7 1).1 = true :=
  ⟨(c10_delete_product_owner_only [p0] 8 1).2.1 (by decide),
   (c10_delete_product_owner_only [p0] 8 1).2.2 p0 (by decide) (by decide),
   (c10_delete_product_owner_only [p0] 7 1).1.mpr ⟨p0, by decide, by decide⟩⟩

end StockTracker
